import Mathlib

/-!
Verification of the per-watershed NDR pipeline of `ipbes_ndr_analysis.py`.

Arrays of a fixed shape are embedded as functions `Fin n → ℚ` (numpy`s
elementwise semantics on equal-shape arrays are position-wise); masked
assignments `result[mask] = vals` are embedded as `masked_fill`, applied in the
same order as the source writes them, so last-write-wins is preserved.
Transcendental library calls (`numpy.log10`, `numpy.exp`) are abstracted as
function parameters, since every claim under study concerns masking, guards and
rational arithmetic, never the value of the transcendental itself.
-/

namespace IpbesNdr

/-- Module-level constant `NODATA = -1`, the transport-raster nodata sentinel. -/
def NODATA : ℚ := -1

/-- Module-level constant `IC_NODATA = -9999`, the connectivity-index raster's
declared nodata sentinel. -/
def IC_NODATA : ℚ := -9999

/-- Module-level constant `K_VAL = 1.0`, the fixed `k` of Eq. 4. -/
def K_VAL : ℚ := 1

/-- Default `rtol` of `numpy.isclose`. -/
def rtol : ℚ := 1 / 100000

/-- Default `atol` of `numpy.isclose`. -/
def atol : ℚ := 1 / 100000000

/-- Embedding of `numpy.absolute` on rationals, written as a conditional so
that concrete instances evaluate by kernel reduction. -/
def rabs (x : ℚ) : ℚ := if x < 0 then -x else x

theorem rabs_eq_abs (x : ℚ) : rabs x = |x| := by
  unfold rabs
  rcases lt_or_le x 0 with h | h
  · rw [if_pos h, abs_of_neg h]
  · rw [if_neg (not_lt.mpr h), abs_of_nonneg h]

/-- Embedding of `numpy.isclose(a, b)` with default tolerances:
`|a - b| <= atol + rtol * |b|`. -/
def isclose (a b : ℚ) : Bool :=
  decide (rabs (a - b) ≤ atol + rtol * rabs b)

/-- Embedding of the vectorized masked assignment `result[mask] = vals`:
positions where the mask holds take the new values, all others keep `arr`. -/
def masked_fill {n : ℕ} (mask : Fin n → Bool) (vals arr : Fin n → ℚ) :
    Fin n → ℚ :=
  fun i => if mask i then vals i else arr i

/-- Embedding of `calc_ic(d_up_array, d_dn_array)`: result starts filled with
`NODATA`, the valid cells receive `log10(d_up / d_dn)`, and last of all the
zero-mask cells are overwritten with `0`.  `log10` is `numpy.log10`,
abstracted. -/
def calc_ic {n : ℕ} (log10 : ℚ → ℚ) (d_up_array d_dn_array : Fin n → ℚ) :
    Fin n → ℚ :=
  let result0 : Fin n → ℚ := fun _ => NODATA
  let zero_mask : Fin n → Bool := fun i =>
    (d_dn_array i == 0) || (d_up_array i == 0)
  let valid_mask : Fin n → Bool := fun i =>
    !isclose (d_up_array i) NODATA &&
    !isclose (d_dn_array i) NODATA &&
    decide (d_up_array i > 0) && decide (d_dn_array i > 0) &&
    !zero_mask i
  let result1 := masked_fill valid_mask
    (fun i => log10 (d_up_array i / d_dn_array i)) result0
  masked_fill zero_mask (fun _ => 0) result1

example : calc_ic (fun _ => 0) (fun _ : Fin 1 => 5) (fun _ => NODATA) 0 = NODATA := by
  norm_num [calc_ic, masked_fill, isclose, rabs, atol, rtol, NODATA]

example : calc_ic (fun _ => 37) (fun _ : Fin 1 => 5) (fun _ => 2) 0 = 37 := by
  norm_num [calc_ic, masked_fill, isclose, rabs, atol, rtol, NODATA]

/-- C1: the claim states that every invalid IC cell (an operand close to the
transport sentinel `NODATA`, neither operand zero) holds the IC raster's own
declared sentinel `IC_NODATA = -9999`.  The code instead fills invalid cells
with the transport sentinel `NODATA = -1`: at `d_up = 5`, `d_dn = NODATA` the
stored value is `NODATA`, which differs from `IC_NODATA`, so a consumer testing
against `IC_NODATA` (as `calculate_ndr` does) treats the invalid cell as a
valid IC value. -/
theorem calc_ic_invalid_cell_holds_transport_sentinel :
    calc_ic (fun _ => 0) (fun _ : Fin 1 => 5) (fun _ => NODATA) 0 = NODATA ∧
    NODATA ≠ IC_NODATA := by
  constructor
  · norm_num [calc_ic, masked_fill, isclose, rabs, atol, rtol, NODATA]
  · norm_num [NODATA, IC_NODATA]

/-- C5: at every cell where `d_up = 0` or `d_dn = 0` and not both operands are
nodata, `calc_ic` returns exactly `0`, not a nodata sentinel. -/
theorem calc_ic_zero_operand_gives_zero {n : ℕ} (log10 : ℚ → ℚ)
    (d_up_array d_dn_array : Fin n → ℚ) (i : Fin n)
    (h : d_up_array i = 0 ∨ d_dn_array i = 0)
    (hnod : ¬(d_up_array i = NODATA ∧ d_dn_array i = NODATA)) :
    calc_ic log10 d_up_array d_dn_array i = 0 := by
  rcases h with h | h <;> simp [calc_ic, masked_fill, h]

/-- C5 witness: `d_up = 0`, `d_dn = 5` at the single cell of a 1-cell raster
yields IC `0`. -/
theorem calc_ic_zero_operand_gives_zero_witness :
    calc_ic (fun _ => 0) (fun _ : Fin 1 => 0) (fun _ => 5) 0 = 0 :=
  calc_ic_zero_operand_gives_zero (fun _ => 0) (fun _ => 0) (fun _ => 5) 0
    (Or.inl rfl) (by norm_num [NODATA])

/-- C10: the zero-override in `calc_ic` is written after the nodata fill and
after the valid-mask write, so it wins at every cell with a zero operand, even
when the other operand is the nodata sentinel: such cells hold `0`, never
nodata. -/
theorem calc_ic_zero_overrides_nodata {n : ℕ} (log10 : ℚ → ℚ)
    (d_up_array d_dn_array : Fin n → ℚ) (i : Fin n)
    (h : d_up_array i = 0 ∨ d_dn_array i = 0) :
    calc_ic log10 d_up_array d_dn_array i = 0 := by
  rcases h with h | h <;> simp [calc_ic, masked_fill, h]

/-- C10 witness: `d_up = 0` paired with `d_dn = NODATA` yields `0`, not
nodata. -/
theorem calc_ic_zero_overrides_nodata_witness :
    calc_ic (fun _ => 0) (fun _ : Fin 1 => 0) (fun _ => NODATA) 0 = 0 :=
  calc_ic_zero_overrides_nodata (fun _ => 0) (fun _ => 0) (fun _ => NODATA) 0
    (Or.inl rfl)

/-- Embedding of the inner `_mult_arrays(*array_list)` of `mult_arrays`: each
input raster comes with its own nodata sentinel (the `zip` of `nodata_array`
with the stacked arrays); a cell is valid when every input is not close to its
own nodata, valid cells receive the product across the stack, all others keep
the `NODATA` fill. -/
def mult_arrays {n : ℕ} (inputs : List (ℚ × (Fin n → ℚ))) : Fin n → ℚ :=
  let valid_mask : Fin n → Bool := fun i =>
    inputs.all (fun p => !isclose p.1 (p.2 i))
  let result0 : Fin n → ℚ := fun _ => NODATA
  masked_fill valid_mask (fun i => (inputs.map (fun p => p.2 i)).prod) result0

/-- C2: nodata propagation of the raster algebra — at every cell where each
input is valid (not close to its own nodata) the output of `mult_arrays` is
the product of the inputs, and at every cell where some input is nodata the
output is the output nodata sentinel `NODATA` (the sentinel both call sites
declare for the product rasters). -/
theorem mult_arrays_nodata_propagation {n : ℕ}
    (inputs : List (ℚ × (Fin n → ℚ))) (i : Fin n) :
    ((∀ p ∈ inputs, isclose p.1 (p.2 i) = false) →
      mult_arrays inputs i = (inputs.map (fun p => p.2 i)).prod) ∧
    ((∃ p ∈ inputs, isclose p.1 (p.2 i) = true) →
      mult_arrays inputs i = NODATA) := by
  constructor
  · intro h
    have hm : inputs.all (fun p => !isclose p.1 (p.2 i)) = true := by
      rw [List.all_eq_true]
      intro p hp
      simp [h p hp]
    simp [mult_arrays, masked_fill, hm]
  · rintro ⟨p, hp, hcl⟩
    have hm : inputs.all (fun p => !isclose p.1 (p.2 i)) = false := by
      rw [Bool.eq_false_iff]
      intro hall
      rw [List.all_eq_true] at hall
      have := hall p hp
      rw [hcl] at this
      simp at this
    simp [mult_arrays, masked_fill, hm]

/-- C2 witness: two aligned 1-cell inputs with sentinel `-1`; all-valid cells
multiply (`3 * 4 = 12`), and a cell where the first input equals its sentinel
is forced to `NODATA`. -/
theorem mult_arrays_nodata_propagation_witness :
    mult_arrays [((-1 : ℚ), fun _ : Fin 1 => 3), ((-1 : ℚ), fun _ => 4)] 0
      = 12 ∧
    mult_arrays [((-1 : ℚ), fun _ : Fin 1 => -1), ((-1 : ℚ), fun _ => 4)] 0
      = NODATA := by
  constructor
  · have h := (mult_arrays_nodata_propagation
      [((-1 : ℚ), fun _ : Fin 1 => 3), ((-1 : ℚ), fun _ => 4)] 0).1
      (by
        intro p hp
        fin_cases hp <;> norm_num [isclose, rabs, atol, rtol])
    rw [h]
    norm_num
  · exact (mult_arrays_nodata_propagation
      [((-1 : ℚ), fun _ : Fin 1 => -1), ((-1 : ℚ), fun _ => 4)] 0).2
      ⟨((-1 : ℚ), fun _ => -1), by
        constructor
        · exact List.mem_cons_self _ _
        · norm_num [isclose, rabs, atol, rtol]⟩

/-- Embedding of `div_arrays(num_array, denom_array)`: exact (`!=`, not
isclose) guards against the numerator sentinel, the denominator sentinel and a
zero denominator; guarded cells receive the quotient, all others keep the
`NODATA` fill. -/
def div_arrays {n : ℕ} (num_array denom_array : Fin n → ℚ) : Fin n → ℚ :=
  let result0 : Fin n → ℚ := fun _ => NODATA
  let valid_mask : Fin n → Bool := fun i =>
    decide (num_array i ≠ NODATA) && decide (denom_array i ≠ NODATA) &&
    decide (denom_array i ≠ 0)
  masked_fill valid_mask (fun i => num_array i / denom_array i) result0

/-- C8: `div_arrays` computes the quotient at exactly the cells where the
numerator is not nodata, the denominator is not nodata and the denominator is
nonzero, and writes `NODATA` at every other cell, so the division is only ever
evaluated with a nonzero denominator. -/
theorem div_arrays_guarded {n : ℕ} (num_array denom_array : Fin n → ℚ)
    (i : Fin n) :
    (num_array i ≠ NODATA → denom_array i ≠ NODATA → denom_array i ≠ 0 →
      div_arrays num_array denom_array i = num_array i / denom_array i) ∧
    (num_array i = NODATA ∨ denom_array i = NODATA ∨ denom_array i = 0 →
      div_arrays num_array denom_array i = NODATA) := by
  constructor
  · intro h1 h2 h3
    simp [div_arrays, masked_fill, h1, h2, h3]
  · rintro (h | h | h) <;> simp [div_arrays, masked_fill, h]

/-- C8 witness: `6 / 2 = 3` on a valid cell, `NODATA` on a zero-denominator
cell. -/
theorem div_arrays_guarded_witness :
    div_arrays (fun _ : Fin 1 => 6) (fun _ => 2) 0 = 3 ∧
    div_arrays (fun _ : Fin 1 => 6) (fun _ => 0) 0 = NODATA := by
  constructor
  · have h := (div_arrays_guarded (fun _ : Fin 1 => 6) (fun _ => 2) 0).1
      (by norm_num [NODATA]) (by norm_num [NODATA]) (by norm_num)
    rw [h]
    norm_num
  · exact (div_arrays_guarded (fun _ : Fin 1 => 6) (fun _ => 0) 0).2
      (Or.inr (Or.inr rfl))

/-- Embedding of `ic_0 = (ic_max + ic_min) / 2.0` in `calculate_ndr`, computed
once per watershed from the IC raster's global statistics. -/
def ic_0_from_stats (ic_min ic_max : ℚ) : ℚ := (ic_max + ic_min) / 2

/-- Valid mask of `ndr_op`: exact (`!=`) tests against the transport sentinel
for the retention raster and against `IC_NODATA` for the IC raster. -/
def ndr_valid_mask {n : ℕ}
    (downstream_ret_eff_array ic_array : Fin n → ℚ) : Fin n → Bool :=
  fun i =>
    decide (downstream_ret_eff_array i ≠ NODATA) &&
    decide (ic_array i ≠ IC_NODATA)

/-- Embedding of the inner `ndr_op` of `calculate_ndr`: `NODATA` fill, then —
only when the valid mask is nonempty, as the `count_nonzero` guard requires —
the masked assignment of Eq. 4, `(1 - eff) / (1 + exp((IC - IC_0) / k))`.
`expf` is `numpy.exp`, abstracted. -/
def ndr_op {n : ℕ} (expf : ℚ → ℚ) (ic_0 k_val : ℚ)
    (downstream_ret_eff_array ic_array : Fin n → ℚ) : Fin n → ℚ :=
  let result0 : Fin n → ℚ := fun _ => NODATA
  if 0 < (Finset.univ.filter
      (fun i => ndr_valid_mask downstream_ret_eff_array ic_array i = true)).card
  then
    masked_fill (ndr_valid_mask downstream_ret_eff_array ic_array)
      (fun i => (1 - downstream_ret_eff_array i) /
        (1 + expf ((ic_array i - ic_0) / k_val))) result0
  else result0

/-- Embedding of `calculate_ndr`: the per-watershed `ic_0` from the raster
statistics feeds `ndr_op` over the two aligned rasters. -/
def calculate_ndr {n : ℕ} (expf : ℚ → ℚ) (ic_min ic_max k_val : ℚ)
    (downstream_ret_eff_array ic_array : Fin n → ℚ) : Fin n → ℚ :=
  ndr_op expf (ic_0_from_stats ic_min ic_max) k_val
    downstream_ret_eff_array ic_array

/-- C6: at every cell where the retention value and the IC value are both
non-nodata, `calculate_ndr` yields
`(1 - eff) / (1 + exp((IC - (max + min) / 2) / k))` with `IC_0` taken from the
IC raster's global statistics; every other cell holds the nodata sentinel. -/
theorem calculate_ndr_formula {n : ℕ} (expf : ℚ → ℚ)
    (ic_min ic_max k_val : ℚ)
    (downstream_ret_eff_array ic_array : Fin n → ℚ) (i : Fin n) :
    (downstream_ret_eff_array i ≠ NODATA → ic_array i ≠ IC_NODATA →
      calculate_ndr expf ic_min ic_max k_val
          downstream_ret_eff_array ic_array i
        = (1 - downstream_ret_eff_array i) /
          (1 + expf ((ic_array i - (ic_max + ic_min) / 2) / k_val))) ∧
    (downstream_ret_eff_array i = NODATA ∨ ic_array i = IC_NODATA →
      calculate_ndr expf ic_min ic_max k_val
          downstream_ret_eff_array ic_array i = NODATA) := by
  constructor
  · intro h1 h2
    have hvm : ndr_valid_mask downstream_ret_eff_array ic_array i = true := by
      simp [ndr_valid_mask, h1, h2]
    have hcard : 0 < (Finset.univ.filter
        (fun j =>
          ndr_valid_mask downstream_ret_eff_array ic_array j = true)).card :=
      Finset.card_pos.mpr ⟨i, by simp [Finset.mem_filter, hvm]⟩
    unfold calculate_ndr ndr_op
    rw [if_pos hcard]
    simp [masked_fill, hvm, ic_0_from_stats]
  · intro h
    have hvm : ndr_valid_mask downstream_ret_eff_array ic_array i = false := by
      rcases h with h | h <;> simp [ndr_valid_mask, h]
    unfold calculate_ndr ndr_op
    by_cases hcard : 0 < (Finset.univ.filter
        (fun j =>
          ndr_valid_mask downstream_ret_eff_array ic_array j = true)).card
    · rw [if_pos hcard]
      simp [masked_fill, hvm]
    · rw [if_neg hcard]

/-- C6 witness: a 1-cell watershed with `eff = 1/2`, `IC = 1`, statistics
`min = 0`, `max = 2` and `k = K_VAL` gives
`(1 - 1/2) / (1 + exp((1 - 1) / 1)) = (1/2) / (1 + exp 0)`; with the identity
standing in for `exp` this is `1/2`, and a nodata retention cell yields
`NODATA`. -/
theorem calculate_ndr_formula_witness :
    calculate_ndr (fun x => x) 0 2 K_VAL (fun _ : Fin 1 => 1/2) (fun _ => 1) 0
      = 1/2 ∧
    calculate_ndr (fun x => x) 0 2 K_VAL (fun _ : Fin 1 => NODATA)
      (fun _ => 1) 0 = NODATA := by
  constructor
  · have h := (calculate_ndr_formula (fun x => x) 0 2 K_VAL
      (fun _ : Fin 1 => 1/2) (fun _ => 1) 0).1
      (by norm_num [NODATA]) (by norm_num [IC_NODATA])
    rw [h]
    norm_num [K_VAL]
  · exact (calculate_ndr_formula (fun x => x) 0 2 K_VAL
      (fun _ : Fin 1 => NODATA) (fun _ => 1) 0).2 (Or.inl rfl)

/-- Embedding of the accumulation loop of `aggregate_to_database`: iterate the
raster blocks, adding to the running sum every value of the block that is not
close to the export raster's nodata. -/
def n_export_sum_of_blocks (n_export_nodata : ℚ) (blocks : List (List ℚ)) :
    ℚ :=
  blocks.foldl
    (fun acc data_block =>
      acc + (data_block.filter (fun x => !isclose x n_export_nodata)).sum) 0

/-- Embedding of `pixel_area_ha = mean_pixel_size ** 2 * 0.0001`. -/
def pixel_area_ha_of (mean_pixel_size : ℚ) : ℚ :=
  mean_pixel_size ^ 2 * (1 / 10000)

/-- Embedding of `total_export = n_export_sum * pixel_area_ha`. -/
def total_export_of (n_export_nodata mean_pixel_size : ℚ)
    (blocks : List (List ℚ)) : ℚ :=
  n_export_sum_of_blocks n_export_nodata blocks *
    pixel_area_ha_of mean_pixel_size

theorem foldl_add_eq_sum_map (f : List ℚ → ℚ) (blocks : List (List ℚ))
    (a : ℚ) :
    blocks.foldl (fun acc b => acc + f b) a = a + (blocks.map f).sum := by
  induction blocks generalizing a with
  | nil => simp
  | cons b bs ih =>
    simp only [List.foldl_cons, List.map_cons, List.sum_cons]
    rw [ih]
    ring

/-- C7: the block-wise accumulation of `aggregate_to_database` equals the sum
of the export values over all pixels of the raster that are not nodata,
multiplied by the pixel area in hectares (mean pixel size squared times
`0.0001`). -/
theorem aggregate_total_export (n_export_nodata mean_pixel_size : ℚ)
    (blocks : List (List ℚ)) :
    total_export_of n_export_nodata mean_pixel_size blocks
      = (blocks.join.filter (fun x => !isclose x n_export_nodata)).sum *
        (mean_pixel_size ^ 2 * (1 / 10000)) := by
  unfold total_export_of n_export_sum_of_blocks pixel_area_ha_of
  rw [foldl_add_eq_sum_map, zero_add]
  congr 1
  induction blocks with
  | nil => simp
  | cons b bs ih =>
    simp only [List.map_cons, List.sum_cons, List.join_cons,
      List.filter_append, List.sum_append]
    rw [ih]

/-- Row type of the `nutrient_export` table:
`(ws_prefix_key, scenario_key, total_export)` with
`PRIMARY KEY (ws_prefix_key, scenario_key)`. -/
abbrev ExportTable := List (String × String × ℚ)

/-- Key occupancy of the `nutrient_export` table under its primary key. -/
def table_has_key (table : ExportTable) (ws_key scenario_key : String) :
    Bool :=
  table.any (fun row => row.1 == ws_key && row.2.1 == scenario_key)

/-- Store errors the SQLite `INSERT` can raise: the primary-key conflict, or
any other operational error of the store. -/
inductive StoreError
  | duplicateKey
  | otherError
deriving DecidableEq

/-- Embedding of the `INSERT INTO nutrient_export VALUES (?, ?, ?)` against
the schema of `main`: an environmental fault raises a non-duplicate store
error; an occupied primary key raises the duplicate-key conflict; otherwise
the row is appended. -/
def insert_export (fault : Bool) (table : ExportTable)
    (ws_key scenario_key : String) (total_export : ℚ) :
    Except StoreError ExportTable :=
  if fault then Except.error StoreError.otherError
  else if table_has_key table ws_key scenario_key then
    Except.error StoreError.duplicateKey
  else Except.ok (table ++ [(ws_key, scenario_key, total_export)])

/-- Observable outcome of one `aggregate_to_database` call: the table after
the call, whether the touch file was written, whether an exception reached
the caller, and whether `LOGGER.exception` fired. -/
structure AggOutcome where
  table : ExportTable
  touch_created : Bool
  raised : Bool
  logged_error : Bool
deriving DecidableEq

/-- Embedding of the store interaction of `aggregate_to_database`: the
`INSERT` is wrapped in a bare `except:` that logs and swallows every store
error, the transaction is committed, and the touch file is written on every
path that reaches the end of the function. -/
def aggregate_to_database (fault : Bool) (table : ExportTable)
    (ws_key scenario_key : String) (total_export : ℚ) : AggOutcome :=
  match insert_export fault table ws_key scenario_key total_export with
  | Except.ok new_table => ⟨new_table, true, false, false⟩
  | Except.error _ => ⟨table, true, false, true⟩

/-- C3: calling `aggregate_to_database` twice with the same key and different
totals, starting from a table without that key, leaves exactly one row for
the key, holding the first total; the second call does not raise and does not
add or change any row. -/
theorem aggregate_duplicate_insert_noop (table : ExportTable)
    (ws_key scenario_key : String) (total1 total2 : ℚ)
    (hfresh : table_has_key table ws_key scenario_key = false)
    (hne : total1 ≠ total2) :
    (aggregate_to_database false
        (aggregate_to_database false table ws_key scenario_key total1).table
        ws_key scenario_key total2).raised = false ∧
    (aggregate_to_database false
        (aggregate_to_database false table ws_key scenario_key total1).table
        ws_key scenario_key total2).table
      = (aggregate_to_database false table ws_key scenario_key total1).table ∧
    ((aggregate_to_database false
        (aggregate_to_database false table ws_key scenario_key total1).table
        ws_key scenario_key total2).table.filter
      (fun row => row.1 == ws_key && row.2.1 == scenario_key))
      = [(ws_key, scenario_key, total1)] := by
  have h1 : aggregate_to_database false table ws_key scenario_key total1
      = ⟨table ++ [(ws_key, scenario_key, total1)], true, false, false⟩ := by
    unfold aggregate_to_database insert_export
    rw [if_neg (by simp), if_neg (by simp [hfresh])]
  have hkey2 : table_has_key (table ++ [(ws_key, scenario_key, total1)])
      ws_key scenario_key = true := by
    unfold table_has_key
    rw [List.any_append]
    simp
  have h2 : aggregate_to_database false
      (table ++ [(ws_key, scenario_key, total1)]) ws_key scenario_key total2
      = ⟨table ++ [(ws_key, scenario_key, total1)], true, false, true⟩ := by
    unfold aggregate_to_database insert_export
    rw [if_neg (by simp), if_pos hkey2]
  have hfilter : table.filter
      (fun row => row.1 == ws_key && row.2.1 == scenario_key) = [] := by
    rw [List.filter_eq_nil_iff]
    intro row hrow
    intro hcontra
    have hany : table.any
        (fun row => row.1 == ws_key && row.2.1 == scenario_key) = true :=
      List.any_eq_true.mpr ⟨row, hrow, hcontra⟩
    unfold table_has_key at hfresh
    rw [hfresh] at hany
    exact Bool.false_ne_true hany
  rw [h1]
  simp only
  rw [h2]
  refine ⟨rfl, rfl, ?_⟩
  simp only [List.filter_append, hfilter, List.nil_append]
  simp [List.filter]

/-- C3 witness: two inserts of `("w0", "2015")` with totals `3` then `7` on an
initially empty table leave the single row `("w0", "2015", 3)` and the second
call does not raise. -/
theorem aggregate_duplicate_insert_noop_witness :
    (aggregate_to_database false
        (aggregate_to_database false [] "w0" "2015" 3).table
        "w0" "2015" 7).raised = false ∧
    (aggregate_to_database false
        (aggregate_to_database false [] "w0" "2015" 3).table
        "w0" "2015" 7).table
      = (aggregate_to_database false [] "w0" "2015" 3).table ∧
    ((aggregate_to_database false
        (aggregate_to_database false [] "w0" "2015" 3).table
        "w0" "2015" 7).table.filter
      (fun row => row.1 == "w0" && row.2.1 == "2015"))
      = [("w0", "2015", (3 : ℚ))] :=
  aggregate_duplicate_insert_noop [] "w0" "2015" 3 7 rfl (by norm_num)

/-- C4 counterexample: a non-duplicate store error (`otherError`, raised by an
environmental fault on an empty table, so no duplicate key is involved) is
swallowed by the bare `except:` — the call does not raise to its caller and
the success touch file is still created, contradicting the claim that such an
error is surfaced and the touch file withheld. -/
theorem aggregate_other_error_swallowed_counterexample :
    insert_export true [] "w0" "2015" 3
      = Except.error StoreError.otherError ∧
    (aggregate_to_database true [] "w0" "2015" 3).raised = false ∧
    (aggregate_to_database true [] "w0" "2015" 3).touch_created = true :=
  ⟨rfl, rfl, rfl⟩

/-- C4 amended: every store error of the `nutrient_export` insert — the
duplicate-key conflict and any other store error alike — is logged and
swallowed: `aggregate_to_database` never raises to its caller and the touch
file is created on every call, so a later skip-check treats the step as
complete even when the insert failed. -/
theorem aggregate_swallows_every_store_error (fault : Bool)
    (table : ExportTable) (ws_key scenario_key : String)
    (total_export : ℚ) :
    (aggregate_to_database fault table ws_key scenario_key
      total_export).raised = false ∧
    (aggregate_to_database fault table ws_key scenario_key
      total_export).touch_created = true ∧
    ((aggregate_to_database fault table ws_key scenario_key
        total_export).logged_error = true ↔
      ∃ e, insert_export fault table ws_key scenario_key total_export
        = Except.error e) := by
  unfold aggregate_to_database
  cases h : insert_export fault table ws_key scenario_key total_export with
  | ok new_table =>
    refine ⟨rfl, rfl, ?_⟩
    constructor
    · intro hcontra
      exact absurd hcontra (by simp)
    · rintro ⟨e, he⟩
      exact absurd he (by simp)
  | error e =>
    exact ⟨rfl, rfl, by simp, fun _ => rfl⟩

/-- Axis-aligned bounding box of a raster tile or watershed, as stored in the
rtree spatial index. -/
structure BBox where
  xmin : ℚ
  ymin : ℚ
  xmax : ℚ
  ymax : ℚ
deriving DecidableEq

/-- Inclusive overlap test on axis-aligned rectangles, the semantics of
`rtree.index.Index.intersection` for a query box. -/
def bbox_intersects (a b : BBox) : Bool :=
  decide (a.xmin ≤ b.xmax) && decide (b.xmin ≤ a.xmax) &&
  decide (a.ymin ≤ b.ymax) && decide (b.ymin ≤ a.ymax)

/-- Embedding of `dem_rtree.intersection(watershed_bb)` over the persisted
index: the identifiers of the tiles whose bounding box intersects the
watershed bounding box. -/
def rtree_intersection (dem_index : List (ℕ × BBox)) (watershed_bb : BBox) :
    List ℕ :=
  (dem_index.filter (fun p => bbox_intersects p.2 watershed_bb)).map
    Prod.fst

/-- Observable outcome of one `merge_watershed_dems` call: the mosaic DEM made
from the overlapping tile paths when one was created, and whether the
no-overlap condition was logged.  The function is total: it returns an
outcome on every input, never an exception. -/
structure MergeOutcome where
  mosaic_dem : Option (List String)
  logged_no_overlap : Bool
deriving DecidableEq

/-- Embedding of `merge_watershed_dems`: query the spatial index with the
watershed bounding box; when some tiles overlap, mosaic their paths into the
target DEM; when none do, log the condition and return without creating a
mosaic. -/
def merge_watershed_dems (dem_index : List (ℕ × BBox))
    (dem_path_index_map : ℕ → String) (watershed_bb : BBox) : MergeOutcome :=
  let overlapping_dem_list := rtree_intersection dem_index watershed_bb
  if overlapping_dem_list.isEmpty then
    ⟨none, true⟩
  else
    ⟨some (overlapping_dem_list.map dem_path_index_map), false⟩

/-- C9: when the watershed bounding box intersects zero tiles of the spatial
index, `merge_watershed_dems` returns normally with no mosaic DEM created and
the condition logged; no failure escapes the call. -/
theorem merge_watershed_dems_empty_intersection
    (dem_index : List (ℕ × BBox)) (dem_path_index_map : ℕ → String)
    (watershed_bb : BBox)
    (h : ∀ p ∈ dem_index, bbox_intersects p.2 watershed_bb = false) :
    merge_watershed_dems dem_index dem_path_index_map watershed_bb
      = ⟨none, true⟩ := by
  have hempty : rtree_intersection dem_index watershed_bb = [] := by
    unfold rtree_intersection
    rw [List.map_eq_nil_iff, List.filter_eq_nil_iff]
    intro p hp
    rw [h p hp]
    exact Bool.false_ne_true
  unfold merge_watershed_dems
  rw [hempty]
  rfl

/-- C9 witness: a one-tile index whose tile lies strictly east of the
watershed box yields no mosaic and the logged no-overlap outcome. -/
theorem merge_watershed_dems_empty_intersection_witness :
    merge_watershed_dems [(0, ⟨10, 10, 11, 11⟩)] (fun _ => "tile0.tif")
      ⟨0, 0, 1, 1⟩ = ⟨none, true⟩ :=
  merge_watershed_dems_empty_intersection [(0, ⟨10, 10, 11, 11⟩)]
    (fun _ => "tile0.tif") ⟨0, 0, 1, 1⟩
    (by
      intro p hp
      fin_cases hp
      norm_num [bbox_intersects])

end IpbesNdr
